import Mathlib

/-!
Verification of the Dolby Vision RPU context header (`libavcodec/dovi_rpu.h`)
and the two CPU-gated dispatch initializers
(`libavcodec/aarch64/pixblockdsp_init_aarch64.c`,
`libavcodec/riscv/llvidencdsp_init.c`) against their natural-language
specification.  The C code is shallowly embedded: C structs become Lean
structures, the opaque libavutil metadata payload types become abstract
carriers, function pointers become inductive enumerations, and the
initializers become pure functions from table to table.
-/

namespace FFmpegSpec

/-! ## Constants from dovi_rpu.h -/

/-- `#define DOVI_MAX_DM_ID 15` (dovi_rpu.h line 33). -/
def DOVI_MAX_DM_ID : Nat := 15

/-- `#define FF_DOVI_AUTOMATIC -1` (dovi_rpu.h line 49). -/
def FF_DOVI_AUTOMATIC : Int := -1

/-! ## Extension-block staticness predicate (dovi_rpu.h lines 196-208)

```c
static inline int ff_dovi_rpu_extension_is_static(int level)
{
    switch (level) {
    case 6:
    case 10:
    case 32: /* reserved as static by spec */
    case 254:
    case 255:
        return 1;
    default:
        return 0;
    }
}
```
-/

/-- Direct embedding of the C `switch`: the listed cases return 1, the
default branch returns 0. -/
def ff_dovi_rpu_extension_is_static (level : Int) : Int :=
  if level = 6 then 1
  else if level = 10 then 1
  else if level = 32 then 1
  else if level = 254 then 1
  else if level = 255 then 1
  else 0

/-- C1: for every integer level `L`, `ff_dovi_rpu_extension_is_static L`
returns 1 exactly when `L ∈ {6, 10, 32, 254, 255}` and 0 otherwise; in
particular, on the levels `{5,6,10,11,32,33,253,254,255}` it evaluates to
`{0,1,1,0,1,0,0,1,1}`. -/
theorem extension_is_static_correct :
    (∀ L : Int,
      (ff_dovi_rpu_extension_is_static L = 1 ↔
        L = 6 ∨ L = 10 ∨ L = 32 ∨ L = 254 ∨ L = 255) ∧
      (ff_dovi_rpu_extension_is_static L = 0 ↔
        ¬(L = 6 ∨ L = 10 ∨ L = 32 ∨ L = 254 ∨ L = 255))) ∧
    List.map ff_dovi_rpu_extension_is_static
        [5, 6, 10, 11, 32, 33, 253, 254, 255] =
      [0, 1, 1, 0, 1, 0, 0, 1, 1] := by
  constructor
  · intro L
    constructor
    · unfold ff_dovi_rpu_extension_is_static
      split_ifs with h1 h2 h3 h4 h5 <;> simp_all
    · unfold ff_dovi_rpu_extension_is_static
      split_ifs with h1 h2 h3 h4 h5 <;> simp_all
  · decide

/-! ## The Dolby Vision RPU context (dovi_rpu.h lines 35-91)

The libavutil metadata payload types (`AVDOVIDmData`,
`AVDOVIRpuDataHeader`, `AVDOVIColorMetadata`, `AVDOVIDataMapping`,
`AVDOVIDecoderConfigurationRecord`) are declared in
`libavutil/dovi_meta.h`, which is not among the provided sources and whose
internals none of the claims depend on; each is modelled as an abstract
carrier (`Nat`) whose zero value stands for the all-zero C struct. -/

abbrev AVDOVIDmData := Nat
abbrev AVDOVIRpuDataHeader := Nat
abbrev AVDOVIColorMetadata := Nat
abbrev AVDOVIDataMapping := Nat
abbrev AVDOVIDecoderConfigurationRecord := Nat

/-- `DOVIExt` (dovi_rpu.h lines 35-40): up to 7 static and up to 25 dynamic
extension blocks, with their counts.  The fixed-capacity C arrays
`dm_static[7]` and `dm_dynamic[25]` become functions out of `Fin 7` and
`Fin 25`. -/
structure DOVIExt where
  dm_static : Fin 7 → AVDOVIDmData
  dm_dynamic : Fin 25 → AVDOVIDmData
  num_static : Nat
  num_dynamic : Nat

/-- `DOVIContext` (dovi_rpu.h lines 42-91).  Pointer-valued fields
(`mapping`, `color`, `ext_blocks`, `dm`, each `vdr[i]`, `rpu_buf`) become
options, NULL being `none`; the 16-entry RefStruct array
`vdr[DOVI_MAX_DM_ID+1]` becomes a function out of `Fin (DOVI_MAX_DM_ID+1)`;
the opaque `logctx` handle is an abstract `Nat`. -/
structure DOVIContext where
  logctx : Nat
  enable : Int
  cfg : AVDOVIDecoderConfigurationRecord
  header : AVDOVIRpuDataHeader
  mapping : Option AVDOVIDataMapping
  color : Option AVDOVIColorMetadata
  ext_blocks : Option DOVIExt
  dm : Option AVDOVIColorMetadata
  vdr : Fin (DOVI_MAX_DM_ID + 1) → Option AVDOVIDataMapping
  rpu_buf : Option (List Nat)
  rpu_buf_sz : Nat

/-- Modelled from the spec: `ff_dovi_ctx_unref` is implemented in
`dovi_rpu.c`, absent from src.  Per the header documentation and spec,
it releases every reference-counted slot, frees the scratch buffer and
zeroes the whole context except for `logctx`. -/
def ff_dovi_ctx_unref (s : DOVIContext) : DOVIContext :=
  { logctx := s.logctx
    enable := 0
    cfg := 0
    header := 0
    mapping := none
    color := none
    ext_blocks := none
    dm := none
    vdr := fun _ => none
    rpu_buf := none
    rpu_buf_sz := 0 }

/-- Modelled from the spec: `ff_dovi_ctx_flush` is implemented in
`dovi_rpu.c`, absent from src.  Per the header documentation and spec, it
resets the per-frame state (`header`, `mapping`, `color`, `ext_blocks`,
`dm`, every `vdr[i]`) but preserves the stream-wide configuration
(`cfg`, `enable`, `logctx`) and retains the scratch buffer allocation. -/
def ff_dovi_ctx_flush (s : DOVIContext) : DOVIContext :=
  { s with
    header := 0
    mapping := none
    color := none
    ext_blocks := none
    dm := none
    vdr := fun _ => none }

/-- The all-zero `DOVIExt`, as produced by zeroed allocation. -/
def dovi_ext_empty : DOVIExt :=
  { dm_static := fun _ => 0
    dm_dynamic := fun _ => 0
    num_static := 0
    num_dynamic := 0 }

/-- Modelled from the spec: the code that populates a `DOVIExt`
(`dovi_rpu.c`), absent from src, appends an extension block of a given
level to the static array when `ff_dovi_rpu_extension_is_static` holds and
to the dynamic array otherwise, each array being bounded by its declared
capacity ("Holds up to 7 static extension blocks and up to 25 dynamic
extension blocks with their respective counts"; the classification
"partitions blocks between the two bounded arrays"). -/
def dovi_ext_push (e : DOVIExt) (b : Int × AVDOVIDmData) : DOVIExt :=
  if ff_dovi_rpu_extension_is_static b.1 = 1 then
    if h : e.num_static < 7 then
      { e with
        dm_static := Function.update e.dm_static ⟨e.num_static, h⟩ b.2
        num_static := e.num_static + 1 }
    else e
  else
    if h : e.num_dynamic < 25 then
      { e with
        dm_dynamic := Function.update e.dm_dynamic ⟨e.num_dynamic, h⟩ b.2
        num_dynamic := e.num_dynamic + 1 }
    else e

/-- Modelled from the spec: the DM-id range check performed by the parser
(`dovi_rpu.c`, absent from src) — a DM id selects a slot of the
`vdr[DOVI_MAX_DM_ID+1]` table, and an out-of-range DM id is a parse failure
("A DM-id index is in [0, 15]"; failure modes include "out-of-range DM
id"). -/
def dovi_vdr_index (dm_id : Nat) : Option Nat :=
  if dm_id ≤ DOVI_MAX_DM_ID then some dm_id else none

/-- Counts stay within the declared capacities under one push. -/
theorem dovi_ext_push_counts (e : DOVIExt) (b : Int × AVDOVIDmData)
    (h1 : e.num_static ≤ 7) (h2 : e.num_dynamic ≤ 25) :
    (dovi_ext_push e b).num_static ≤ 7 ∧
      (dovi_ext_push e b).num_dynamic ≤ 25 := by
  unfold dovi_ext_push
  split_ifs <;> (try simp) <;> omega

/-- Counts stay within the declared capacities under any push sequence. -/
theorem dovi_ext_foldl_counts (blocks : List (Int × AVDOVIDmData))
    (e : DOVIExt) (h1 : e.num_static ≤ 7) (h2 : e.num_dynamic ≤ 25) :
    (List.foldl dovi_ext_push e blocks).num_static ≤ 7 ∧
      (List.foldl dovi_ext_push e blocks).num_dynamic ≤ 25 := by
  induction blocks generalizing e with
  | nil => exact ⟨h1, h2⟩
  | cons b bs ih =>
    have h := dovi_ext_push_counts e b h1 h2
    exact ih (dovi_ext_push e b) h.1 h.2

/-! ## Metadata export (dovi_rpu.h lines 120-126)

`ff_dovi_get_metadata` returns the byte size of the exported record, 0 when
no metadata is available, or a negative error code. -/

/-- `AVERROR(ENOMEM)`: the negative status returned on allocation failure.
Modelled from the spec: the error-code macros live in `libavutil/error.h`,
absent from src; only negativity matters to the claims. -/
def AVERROR_ENOMEM : Int := -12

/-- The exported self-contained metadata record: current header, color,
mapping and extension blocks.  The concrete byte layout is supplied by the
surrounding framework (spec: an open question not derivable from these
sources); the record is modelled component-wise. -/
structure AVDOVIMetadata where
  header : AVDOVIRpuDataHeader
  color : AVDOVIColorMetadata
  mapping : AVDOVIDataMapping
  ext_static : List AVDOVIDmData
  ext_dynamic : List AVDOVIDmData
deriving DecidableEq, Repr

/-- Abstract serialization of the exported record, one cell per component;
the header, color and mapping components are always present, so the byte
size of a record is always positive. -/
def AVDOVIMetadata.bytes (m : AVDOVIMetadata) : List Nat :=
  m.header :: m.color :: m.mapping :: (m.ext_static ++ m.ext_dynamic)

/-- The static blocks of a `DOVIExt`, in slot order. -/
def DOVIExt.staticList (e : DOVIExt) : List AVDOVIDmData :=
  ((List.finRange 7).take e.num_static).map e.dm_static

/-- The dynamic blocks of a `DOVIExt`, in slot order. -/
def DOVIExt.dynamicList (e : DOVIExt) : List AVDOVIDmData :=
  ((List.finRange 25).take e.num_dynamic).map e.dm_dynamic

/-- Modelled from the spec: `ff_dovi_get_metadata` is implemented in
`dovi_rpu.c`, absent from src.  Per the header documentation and spec, it
composes a single self-contained record from the current header, color,
mapping and extension blocks and hands it to the caller, returning its byte
size; it returns 0 when no metadata is available (no current mapping or
color view), and a negative status on allocation failure.  Allocation
success is the explicit `alloc_ok` argument; the returned option models the
caller-owned `*out_metadata`. -/
def ff_dovi_get_metadata (s : DOVIContext) (alloc_ok : Bool) :
    Int × Option AVDOVIMetadata :=
  match s.mapping, s.color with
  | some mapping, some color =>
    if alloc_ok then
      let m : AVDOVIMetadata :=
        { header := s.header
          color := color
          mapping := mapping
          ext_static := (s.ext_blocks.map DOVIExt.staticList).getD []
          ext_dynamic := (s.ext_blocks.map DOVIExt.dynamicList).getD [] }
      ((m.bytes.length : Int), some m)
    else (AVERROR_ENOMEM, none)
  | _, _ => (0, none)

/-! ## Primitive dispatch tables

`libavcodec/aarch64/pixblockdsp_init_aarch64.c` installs NEON kernels into a
`PixblockDSPContext`; `libavcodec/riscv/llvidencdsp_init.c` installs an RVV
kernel into an `LLVidEncDSPContext`.  Function pointers are modelled as an
inductive enumeration: the named kernels declared in the two files, plus
`other n` standing for any pre-existing (e.g. scalar) pointer value. -/

/-- A function-pointer value that may occupy a `PixblockDSPContext` slot. -/
inductive PixBlockFn where
  | ff_get_pixels_neon : PixBlockFn
  | ff_diff_pixels_neon : PixBlockFn
  | other : Nat → PixBlockFn
deriving DecidableEq, Repr

/-- The `PixblockDSPContext` dispatch table.  The struct definition lives in
`libavcodec/pixblockdsp.h`, which is not among the provided sources; the four
slots modelled here are exactly the ones the provided initializer touches,
and `rest` stands abstractly for any further slots of the struct. -/
structure PixblockDSPContext where
  get_pixels : PixBlockFn
  get_pixels_unaligned : PixBlockFn
  diff_pixels : PixBlockFn
  diff_pixels_unaligned : PixBlockFn
  rest : Nat
deriving DecidableEq, Repr

/-- Modelled from the spec: `AV_CPU_FLAG_NEON` is defined in
`libavutil/cpu.h`, absent from src; it is a single capability bit in the
CPU-flags bitset ("CPU flags — runtime-detected bitset of available CPU
capabilities (e.g. NEON on 64-bit ARM ...)"). -/
def AV_CPU_FLAG_NEON : Nat := 1 <<< 5

/-- Modelled from the spec: `have_neon` (from `libavutil/aarch64/cpu.h`,
absent from src) tests the NEON capability bit of the CPU-flags bitset. -/
def have_neon (cpu_flags : Nat) : Bool := cpu_flags &&& AV_CPU_FLAG_NEON ≠ 0

/-- Embedding of `ff_pixblockdsp_init_aarch64`
(pixblockdsp_init_aarch64.c lines 32-46):

```c
int cpu_flags = av_get_cpu_flags();
if (have_neon(cpu_flags)) {
    if (!high_bit_depth) {
        c->get_pixels_unaligned =
        c->get_pixels = ff_get_pixels_neon;
    }
    c->diff_pixels_unaligned =
    c->diff_pixels = ff_diff_pixels_neon;
}
```

The global CPU-flags query `av_get_cpu_flags()` becomes the explicit
argument `cpu_flags`; the table is passed and returned by value. -/
def ff_pixblockdsp_init_aarch64 (cpu_flags : Nat) (c : PixblockDSPContext)
    (high_bit_depth : Nat) : PixblockDSPContext :=
  if have_neon cpu_flags then
    let c1 :=
      if high_bit_depth = 0 then
        { c with get_pixels_unaligned := PixBlockFn.ff_get_pixels_neon,
                 get_pixels := PixBlockFn.ff_get_pixels_neon }
      else c
    { c1 with diff_pixels_unaligned := PixBlockFn.ff_diff_pixels_neon,
              diff_pixels := PixBlockFn.ff_diff_pixels_neon }
  else c

/-- A function-pointer value that may occupy an `LLVidEncDSPContext` slot. -/
inductive LLVidFn where
  | ff_llvidenc_diff_bytes_rvv : LLVidFn
  | other : Nat → LLVidFn
deriving DecidableEq, Repr

/-- The `LLVidEncDSPContext` dispatch table.  The struct definition lives in
`libavcodec/lossless_videoencdsp.h`, which is not among the provided sources;
`diff_bytes` is the one slot the provided initializer touches, and `rest`
stands abstractly for every other slot of the struct. -/
structure LLVidEncDSPContext where
  diff_bytes : LLVidFn
  rest : Nat
deriving DecidableEq, Repr

/-- Modelled from the spec: `AV_CPU_FLAG_RVV_I32` is defined in
`libavutil/cpu.h`, absent from src; it is a single capability bit in the
CPU-flags bitset ("RVV I32 on RISC-V"). -/
def AV_CPU_FLAG_RVV_I32 : Nat := 1 <<< 3

/-- Embedding of `ff_llvidencdsp_init_riscv` (llvidencdsp_init.c lines
30-39):

```c
#if HAVE_RVV
    int flags = av_get_cpu_flags();
    if (flags & AV_CPU_FLAG_RVV_I32) {
        c->diff_bytes = ff_llvidenc_diff_bytes_rvv;
    }
#endif
```

The compile-time configuration macro `HAVE_RVV` (from the generated
`config.h`, absent from src) becomes the explicit boolean argument
`have_rvv`; the CPU-flags query becomes the argument `flags`. -/
def ff_llvidencdsp_init_riscv (have_rvv : Bool) (flags : Nat)
    (c : LLVidEncDSPContext) : LLVidEncDSPContext :=
  if have_rvv then
    if flags &&& AV_CPU_FLAG_RVV_I32 ≠ 0 then
      { c with diff_bytes := LLVidFn.ff_llvidenc_diff_bytes_rvv }
    else c
  else c

/-- C2: with NEON present, both diff-pixels slots are set to
`ff_diff_pixels_neon` regardless of `high_bit_depth`; both get-pixels slots
are set to `ff_get_pixels_neon` exactly when `high_bit_depth = 0` and are
left unchanged otherwise; and the aligned/unaligned variants of each
installed operation alias the same implementation. -/
theorem pixblockdsp_init_neon_installs (cpu_flags : Nat)
    (c : PixblockDSPContext) (hbd : Nat) (hneon : have_neon cpu_flags = true) :
    let r := ff_pixblockdsp_init_aarch64 cpu_flags c hbd
    r.diff_pixels = PixBlockFn.ff_diff_pixels_neon ∧
    r.diff_pixels_unaligned = PixBlockFn.ff_diff_pixels_neon ∧
    (hbd = 0 → r.get_pixels = PixBlockFn.ff_get_pixels_neon ∧
      r.get_pixels_unaligned = PixBlockFn.ff_get_pixels_neon) ∧
    (hbd ≠ 0 → r.get_pixels = c.get_pixels ∧
      r.get_pixels_unaligned = c.get_pixels_unaligned) ∧
    r.diff_pixels_unaligned = r.diff_pixels ∧
    (hbd = 0 → r.get_pixels_unaligned = r.get_pixels) := by
  simp only [ff_pixblockdsp_init_aarch64, hneon, if_true]
  by_cases h : hbd = 0 <;> simp [h]

/-- Witness for `pixblockdsp_init_neon_installs`: a concrete table, the NEON
bit set, `high_bit_depth = 0`. -/
theorem pixblockdsp_init_neon_installs_witness :
    have_neon 32 = true ∧
    (let r := ff_pixblockdsp_init_aarch64 32
        ⟨PixBlockFn.other 1, PixBlockFn.other 2, PixBlockFn.other 3,
         PixBlockFn.other 4, 7⟩ 0
     r.diff_pixels = PixBlockFn.ff_diff_pixels_neon ∧
     r.diff_pixels_unaligned = PixBlockFn.ff_diff_pixels_neon ∧
     (0 = 0 → r.get_pixels = PixBlockFn.ff_get_pixels_neon ∧
       r.get_pixels_unaligned = PixBlockFn.ff_get_pixels_neon) ∧
     (0 ≠ 0 → r.get_pixels = PixBlockFn.other 1 ∧
       r.get_pixels_unaligned = PixBlockFn.other 2) ∧
     r.diff_pixels_unaligned = r.diff_pixels ∧
     (0 = 0 → r.get_pixels_unaligned = r.get_pixels)) :=
  ⟨by decide,
   pixblockdsp_init_neon_installs 32
     ⟨PixBlockFn.other 1, PixBlockFn.other 2, PixBlockFn.other 3,
      PixBlockFn.other 4, 7⟩ 0 (by decide)⟩

/-- C3: when the required capability is absent (NEON for the aarch64
pixblock initializer, RVV_I32 for the riscv llvidenc initializer — including
the case where RVV support is compiled out), the initializer returns the
table completely unchanged; moreover, for every flag state, each slot of the
result is either the previous value or a named kernel, so an installed
kernel is never replaced with nothing. -/
theorem dsp_init_no_capability_no_change (cpu_flags flags : Nat)
    (c : PixblockDSPContext) (hbd : Nat) (have_rvv : Bool)
    (l : LLVidEncDSPContext) (hneon : have_neon cpu_flags = false)
    (hrvv : have_rvv = false ∨ flags &&& AV_CPU_FLAG_RVV_I32 = 0) :
    ff_pixblockdsp_init_aarch64 cpu_flags c hbd = c ∧
    ff_llvidencdsp_init_riscv have_rvv flags l = l ∧
    (∀ f2 : Nat, ∀ c2 : PixblockDSPContext, ∀ h2 : Nat,
      let r := ff_pixblockdsp_init_aarch64 f2 c2 h2
      (r.get_pixels = c2.get_pixels ∨
        r.get_pixels = PixBlockFn.ff_get_pixels_neon) ∧
      (r.get_pixels_unaligned = c2.get_pixels_unaligned ∨
        r.get_pixels_unaligned = PixBlockFn.ff_get_pixels_neon) ∧
      (r.diff_pixels = c2.diff_pixels ∨
        r.diff_pixels = PixBlockFn.ff_diff_pixels_neon) ∧
      (r.diff_pixels_unaligned = c2.diff_pixels_unaligned ∨
        r.diff_pixels_unaligned = PixBlockFn.ff_diff_pixels_neon)) ∧
    (∀ b2 : Bool, ∀ f2 : Nat, ∀ l2 : LLVidEncDSPContext,
      (ff_llvidencdsp_init_riscv b2 f2 l2).diff_bytes = l2.diff_bytes ∨
      (ff_llvidencdsp_init_riscv b2 f2 l2).diff_bytes =
        LLVidFn.ff_llvidenc_diff_bytes_rvv) := by
  refine ⟨?_, ?_, ?_, ?_⟩
  · simp [ff_pixblockdsp_init_aarch64, hneon]
  · rcases hrvv with h | h <;> simp [ff_llvidencdsp_init_riscv, h]
  · intro f2 c2 h2
    unfold ff_pixblockdsp_init_aarch64
    split_ifs <;> simp
  · intro b2 f2 l2
    unfold ff_llvidencdsp_init_riscv
    split_ifs <;> simp

/-- Witness for `dsp_init_no_capability_no_change`: flag words with the
relevant bits clear leave concrete tables untouched. -/
theorem dsp_init_no_capability_no_change_witness :
    have_neon 0 = false ∧
    (false = false ∨ (0 : Nat) &&& AV_CPU_FLAG_RVV_I32 = 0) ∧
    (ff_pixblockdsp_init_aarch64 0
        ⟨PixBlockFn.other 1, PixBlockFn.other 2, PixBlockFn.other 3,
         PixBlockFn.other 4, 7⟩ 0 =
      ⟨PixBlockFn.other 1, PixBlockFn.other 2, PixBlockFn.other 3,
       PixBlockFn.other 4, 7⟩) :=
  ⟨by decide, Or.inl rfl,
    (dsp_init_no_capability_no_change 0 0
      ⟨PixBlockFn.other 1, PixBlockFn.other 2, PixBlockFn.other 3,
       PixBlockFn.other 4, 7⟩ 0 false
      ⟨LLVidFn.other 5, 9⟩ (by decide) (Or.inl rfl)).1⟩

/-- C4: both initializers are idempotent — for any table, flag word (and,
for the aarch64 initializer, `high_bit_depth` argument), running the
initializer a second time returns exactly the table produced by the first
run, so any slot installed by the first call is installed with the same
pointer by the second. -/
theorem dsp_init_idempotent (cpu_flags flags : Nat) (c : PixblockDSPContext)
    (hbd : Nat) (have_rvv : Bool) (l : LLVidEncDSPContext) :
    ff_pixblockdsp_init_aarch64 cpu_flags
        (ff_pixblockdsp_init_aarch64 cpu_flags c hbd) hbd =
      ff_pixblockdsp_init_aarch64 cpu_flags c hbd ∧
    ff_llvidencdsp_init_riscv have_rvv flags
        (ff_llvidencdsp_init_riscv have_rvv flags l) =
      ff_llvidencdsp_init_riscv have_rvv flags l := by
  constructor
  · unfold ff_pixblockdsp_init_aarch64
    split_ifs <;> rfl
  · unfold ff_llvidencdsp_init_riscv
    split_ifs <;> rfl

/-- C5 counterexample: when RVV support is compiled out (`HAVE_RVV` = 0) the
initializer does not install the RVV kernel even though the `AV_CPU_FLAG_RVV_I32`
capability bit is present in the flag word. -/
theorem llvidencdsp_no_havervv_counterexample :
    (AV_CPU_FLAG_RVV_I32 &&& AV_CPU_FLAG_RVV_I32 ≠ 0) ∧
    (ff_llvidencdsp_init_riscv false AV_CPU_FLAG_RVV_I32
        ⟨LLVidFn.other 0, 9⟩).diff_bytes ≠
      LLVidFn.ff_llvidenc_diff_bytes_rvv := by
  constructor <;> decide

/-- C5 (amended): the riscv initializer modifies at most the `diff_bytes`
slot — every other field is unchanged for any flag word and whether or not
RVV support is compiled in — and when RVV support is compiled in and the
RVV_I32 capability is present, `diff_bytes` is set to
`ff_llvidenc_diff_bytes_rvv`. -/
theorem llvidencdsp_init_frame (have_rvv : Bool) (flags : Nat)
    (l : LLVidEncDSPContext) :
    (ff_llvidencdsp_init_riscv have_rvv flags l).rest = l.rest ∧
    ((ff_llvidencdsp_init_riscv have_rvv flags l).diff_bytes = l.diff_bytes ∨
      (ff_llvidencdsp_init_riscv have_rvv flags l).diff_bytes =
        LLVidFn.ff_llvidenc_diff_bytes_rvv) ∧
    (have_rvv = true → flags &&& AV_CPU_FLAG_RVV_I32 ≠ 0 →
      (ff_llvidencdsp_init_riscv have_rvv flags l).diff_bytes =
        LLVidFn.ff_llvidenc_diff_bytes_rvv) := by
  refine ⟨?_, ?_, ?_⟩
  · unfold ff_llvidencdsp_init_riscv
    split_ifs <;> rfl
  · unfold ff_llvidencdsp_init_riscv
    split_ifs <;> simp
  · intro hb hf
    simp [ff_llvidencdsp_init_riscv, hb, hf]

/-- Witness for `llvidencdsp_init_frame` at a concrete table with RVV
compiled in and the capability bit set. -/
theorem llvidencdsp_init_frame_witness :
    (ff_llvidencdsp_init_riscv true 8 ⟨LLVidFn.other 5, 9⟩).diff_bytes =
      LLVidFn.ff_llvidenc_diff_bytes_rvv :=
  (llvidencdsp_init_frame true 8 ⟨LLVidFn.other 5, 9⟩).2.2 rfl (by decide)

/-- C6: every extension block set built by the (spec-modelled) population
code satisfies `num_static ≤ 7` and `num_dynamic ≤ 25`, the declared
capacities of `dm_static[7]` and `dm_dynamic[25]`; and every DM id accepted
for the vdr slot table is at most 15 (= `DOVI_MAX_DM_ID`), i.e. a valid
index into the declared 16-entry `vdr[DOVI_MAX_DM_ID+1]` array. -/
theorem dovi_ext_capacity_invariant (blocks : List (Int × AVDOVIDmData)) :
    (List.foldl dovi_ext_push dovi_ext_empty blocks).num_static ≤ 7 ∧
    (List.foldl dovi_ext_push dovi_ext_empty blocks).num_dynamic ≤ 25 ∧
    (∀ dm_id n, dovi_vdr_index dm_id = some n →
      n ≤ 15 ∧ n < DOVI_MAX_DM_ID + 1) := by
  have h := dovi_ext_foldl_counts blocks dovi_ext_empty
    (by simp [dovi_ext_empty]) (by simp [dovi_ext_empty])
  refine ⟨h.1, h.2, ?_⟩
  intro dm_id n hn
  unfold dovi_vdr_index at hn
  split_ifs at hn with hle
  · cases hn
    exact ⟨hle, Nat.lt_succ_of_le hle⟩

/-- Witness for `dovi_ext_capacity_invariant`: the DM-id check accepts the
concrete DM id 5, which indeed indexes within the 16-entry table. -/
theorem dovi_ext_capacity_invariant_witness :
    5 ≤ 15 ∧ 5 < DOVI_MAX_DM_ID + 1 :=
  (dovi_ext_capacity_invariant []).2.2 5 5 (by decide)

/-- C7: after `ff_dovi_ctx_unref`, every field of the context except
`logctx` is zero (options cleared, every vdr slot cleared, scratch buffer
freed), including on a merely zero-initialized context; and unreffing a
second time changes nothing. -/
theorem ctx_unref_zeroes (s : DOVIContext) :
    (ff_dovi_ctx_unref s).logctx = s.logctx ∧
    (ff_dovi_ctx_unref s).enable = 0 ∧
    (ff_dovi_ctx_unref s).cfg = 0 ∧
    (ff_dovi_ctx_unref s).header = 0 ∧
    (ff_dovi_ctx_unref s).mapping = none ∧
    (ff_dovi_ctx_unref s).color = none ∧
    (ff_dovi_ctx_unref s).ext_blocks = none ∧
    (ff_dovi_ctx_unref s).dm = none ∧
    (∀ i, (ff_dovi_ctx_unref s).vdr i = none) ∧
    (ff_dovi_ctx_unref s).rpu_buf = none ∧
    (ff_dovi_ctx_unref s).rpu_buf_sz = 0 ∧
    ff_dovi_ctx_unref (ff_dovi_ctx_unref s) = ff_dovi_ctx_unref s :=
  ⟨rfl, rfl, rfl, rfl, rfl, rfl, rfl, rfl, fun _ => rfl, rfl, rfl, rfl⟩

/-- C8: `ff_dovi_ctx_flush` preserves `cfg`, `enable` and `logctx`, clears
`header`, `mapping`, `color`, `ext_blocks` and every `vdr[i]`, and leaves
the scratch buffer capacity at least its pre-flush capacity. -/
theorem ctx_flush_frame (s : DOVIContext) :
    (ff_dovi_ctx_flush s).cfg = s.cfg ∧
    (ff_dovi_ctx_flush s).enable = s.enable ∧
    (ff_dovi_ctx_flush s).logctx = s.logctx ∧
    (ff_dovi_ctx_flush s).header = 0 ∧
    (ff_dovi_ctx_flush s).mapping = none ∧
    (ff_dovi_ctx_flush s).color = none ∧
    (ff_dovi_ctx_flush s).ext_blocks = none ∧
    (∀ i, (ff_dovi_ctx_flush s).vdr i = none) ∧
    s.rpu_buf_sz ≤ (ff_dovi_ctx_flush s).rpu_buf_sz :=
  ⟨rfl, rfl, rfl, rfl, rfl, rfl, rfl, fun _ => rfl, Nat.le_refl _⟩

/-- C9: `ff_dovi_get_metadata` returns a positive value equal to the byte
size of the record handed to the caller when metadata is available and
allocation succeeds, returns 0 (and no record) when no metadata is
available, and returns a negative status (and no record) on allocation
failure. -/
theorem get_metadata_return_contract (s : DOVIContext) (alloc_ok : Bool) :
    (∀ mp cl, s.mapping = some mp → s.color = some cl → alloc_ok = true →
      0 < (ff_dovi_get_metadata s alloc_ok).1 ∧
      ∃ m, (ff_dovi_get_metadata s alloc_ok).2 = some m ∧
        (ff_dovi_get_metadata s alloc_ok).1 = (m.bytes.length : Int)) ∧
    ((s.mapping = none ∨ s.color = none) →
      ff_dovi_get_metadata s alloc_ok = (0, none)) ∧
    (∀ mp cl, s.mapping = some mp → s.color = some cl → alloc_ok = false →
      (ff_dovi_get_metadata s alloc_ok).1 < 0 ∧
      (ff_dovi_get_metadata s alloc_ok).2 = none) := by
  refine ⟨?_, ?_, ?_⟩
  · intro mp cl hmp hcl hok
    simp only [ff_dovi_get_metadata, hmp, hcl, hok, if_true]
    refine ⟨?_, _, rfl, rfl⟩
    simp [AVDOVIMetadata.bytes]
    positivity
  · intro hnone
    rcases hnone with h | h
    · simp [ff_dovi_get_metadata, h]
    · cases hm : s.mapping <;> simp [ff_dovi_get_metadata, h, hm]
  · intro mp cl hmp hcl hok
    simp [ff_dovi_get_metadata, hmp, hcl, hok, AVERROR_ENOMEM]

/-- Witness for `get_metadata_return_contract`: a context holding a mapping
and a color view, with allocation succeeding. -/
theorem get_metadata_return_contract_witness :
    0 < (ff_dovi_get_metadata
        ⟨0, 0, 0, 4, some 2, some 3, none, none, fun _ => none, none, 0⟩
        true).1 ∧
    ∃ m, (ff_dovi_get_metadata
        ⟨0, 0, 0, 4, some 2, some 3, none, none, fun _ => none, none, 0⟩
        true).2 = some m ∧
      (ff_dovi_get_metadata
        ⟨0, 0, 0, 4, some 2, some 3, none, none, fun _ => none, none, 0⟩
        true).1 = (m.bytes.length : Int) :=
  (get_metadata_return_contract
      ⟨0, 0, 0, 4, some 2, some 3, none, none, fun _ => none, none, 0⟩
      true).1 2 3 rfl rfl rfl

end FFmpegSpec
